import Mathlib

set_option maxRecDepth 100000

/-!
Verification of the FAT32 shell in src/FAT.c against its specification.

The C program is embedded shallowly: the image is a list of bytes
(naturals below 256), machine integers are naturals with explicit
reductions modulo 2^32 where the C code computes in unsigned int, and
each C function becomes an executable Lean function.  The on-disk
DirEntry struct of the source is 40 bytes long (11-byte name, 1 attr
byte, 20 reserved bytes, two 16-bit cluster halves, a 32-bit size),
so sizeof(DirEntry) = 40 while DIR_ENTRY_SIZE = 32; both constants are
kept exactly as the source uses them.
-/

namespace Fat32

/-- BootSectorInfo struct of src/FAT.c (lines 14-21). -/
structure BootSectorInfo where
  bytesPerSector : Nat
  sectorsPerCluster : Nat
  rootCluster : Nat
  totalClusters : Nat
  sectorsPerFAT : Nat
  sizeOfImage : Nat
deriving DecidableEq

/-- DirectoryContext struct of src/FAT.c (lines 23-27); the image name is
irrelevant to the operations and omitted. The path is a list of bytes. -/
structure DirectoryContext where
  currentCluster : Nat
  path : List Nat
deriving DecidableEq

/-- Decoded form of the DirEntry struct of src/FAT.c (lines 31-38). -/
structure DirEntry where
  name : List Nat
  attr : Nat
  firstClusterHigh : Nat
  firstClusterLow : Nat
  fileSize : Nat
deriving DecidableEq

/-- Reading one byte of a byte list; out-of-range reads yield 0. -/
def byteAt (xs : List Nat) (i : Nat) : Nat := xs.getD i 0

/-- Little-endian 16-bit read, as the x86 cast of the struct does. -/
def readLE16 (xs : List Nat) (off : Nat) : Nat :=
  byteAt xs off + 256 * byteAt xs (off + 1)

/-- Little-endian 32-bit read. -/
def readLE32 (xs : List Nat) (off : Nat) : Nat :=
  byteAt xs off + 256 * byteAt xs (off + 1) + 65536 * byteAt xs (off + 2) +
    16777216 * byteAt xs (off + 3)

/-- The 11 name bytes of the directory-entry record starting at `off`. -/
def entryNameAt (buf : List Nat) (off : Nat) : List Nat :=
  (List.range 11).map (fun k => byteAt buf (off + k))

/-- Decoding a DirEntry record at byte offset `off`: the source struct
places name at 0, attr at 11, firstClusterHigh at 32, firstClusterLow
at 34 and fileSize at 36 (record stride 40). -/
def decodeDirEntry (buf : List Nat) (off : Nat) : DirEntry where
  name := entryNameAt buf off
  attr := byteAt buf (off + 11)
  firstClusterHigh := readLE16 buf (off + 32)
  firstClusterLow := readLE16 buf (off + 34)
  fileSize := readLE32 buf (off + 36)

/-- The combined first cluster, src/FAT.c line 84:
`(entry->firstClusterHigh << 16) | entry->firstClusterLow`. -/
def entryFirstCluster (e : DirEntry) : Nat :=
  e.firstClusterHigh <<< 16 ||| e.firstClusterLow

/-- The sector computed by readCluster, src/FAT.c line 42:
`((clusterNum - 2) * bsi->sectorsPerCluster) + bsi->rootCluster`,
evaluated in unsigned int arithmetic (wraparound modulo 2^32,
including the subtraction for clusterNum < 2). -/
def codeClusterSector (bsi : BootSectorInfo) (clusterNum : Nat) : Nat :=
  ((clusterNum % 2 ^ 32 + 2 ^ 32 - 2) * bsi.sectorsPerCluster + bsi.rootCluster) % 2 ^ 32

/-- The byte offset readCluster seeks to, src/FAT.c line 43:
`offset = sector * bsi->bytesPerSector` (off_t is 64-bit and the
product of a 32-bit sector and a 16-bit sector size never wraps). -/
def codeClusterOffset (bsi : BootSectorInfo) (clusterNum : Nat) : Nat :=
  codeClusterSector bsi clusterNum * bsi.bytesPerSector

/-- readCluster, src/FAT.c lines 40-56: it seeks to `codeClusterOffset`
and reads one cluster of bytes; there is no cluster-range validation.
Short reads past the end of the image leave bytes 0 in the model. -/
def codeReadCluster (img : List Nat) (clusterNum : Nat) (bsi : BootSectorInfo) : List Nat :=
  (List.range (bsi.bytesPerSector * bsi.sectorsPerCluster)).map
    (fun k => byteAt img (codeClusterOffset bsi clusterNum + k))

/-- What `printf("%.11s", name)` shows of an 11-byte name: the bytes up
to the first NUL. -/
def printedName (name : List Nat) : List Nat := name.takeWhile (fun b => b != 0)

/-- The entry loop of listDirectory, src/FAT.c lines 155-160: at most
`n` records, stopping at a 0x00 first name byte, skipping 0xE5 records,
advancing by sizeof(DirEntry) = 40 bytes per `entry++`. -/
def listEntriesLoop (buf : List Nat) : Nat → Nat → List (List Nat)
  | 0, _ => []
  | n + 1, off =>
    if byteAt buf off = 0 then []
    else if byteAt buf off = 229 then listEntriesLoop buf n (off + 40)
    else printedName (entryNameAt buf off) :: listEntriesLoop buf n (off + 40)

/-- listDirectory, src/FAT.c lines 139-163: reads the single cluster
`context->currentCluster`, prints the synthetic names then the live
entries of that one cluster; the entry count divides by
DIR_ENTRY_SIZE = 32. The returned list is the printed names. -/
def codeListDirectory (img : List Nat) (ctx : DirectoryContext) (bsi : BootSectorInfo) :
    List (List Nat) :=
  [46] :: [46, 46] ::
    listEntriesLoop (codeReadCluster img ctx.currentCluster bsi)
      ((bsi.bytesPerSector * bsi.sectorsPerCluster) / 32) 0

/-- C `strncmp(a, b, n) == 0` viewed through `byteAt` (a byte list acts
as a NUL-terminated string because out-of-range reads give 0). -/
def strncmpEqAux (a b : List Nat) : Nat → Nat → Bool
  | _, 0 => true
  | i, n + 1 =>
    if byteAt a i ≠ byteAt b i then false
    else if byteAt a i = 0 then true
    else strncmpEqAux a b (i + 1) n

/-- `strncmp(a, b, n) == 0`. -/
def strncmpEq (a b : List Nat) (n : Nat) : Bool := strncmpEqAux a b 0 n

/-- The literal `".."` padded to 11 bytes with spaces, src/FAT.c line 81. -/
def dotdotPadded : List Nat := [46, 46, 32, 32, 32, 32, 32, 32, 32, 32, 32]

/-- The entry loop of changeDirectory, src/FAT.c lines 76-89: the `..`
branch only sets `found` and keeps scanning; the named-directory branch
updates the cluster and appends to the path, then breaks. Record
stride is sizeof(DirEntry) = 40. -/
def cdLoop (buf dirName : List Nat) : Nat → Nat → DirectoryContext → Bool →
    DirectoryContext × Bool
  | 0, _, ctx, found => (ctx, found)
  | n + 1, off, ctx, found =>
    if byteAt buf off = 0 then (ctx, found)
    else if byteAt buf off = 229 then cdLoop buf dirName n (off + 40) ctx found
    else if dirName = [46, 46] ∧ strncmpEq (entryNameAt buf off) dotdotPadded 11 then
      cdLoop buf dirName n (off + 40) ctx true
    else if byteAt buf (off + 11) &&& 16 ≠ 0 ∧ strncmpEq (entryNameAt buf off) dirName 11 then
      (⟨entryFirstCluster (decodeDirEntry buf off), ctx.path ++ [47] ++ dirName⟩, true)
    else cdLoop buf dirName n (off + 40) ctx found

/-- changeDirectory, src/FAT.c lines 58-96. The Bool is true unless the
function prints `Directory not found`. `"."` returns immediately. -/
def codeChangeDirectory (img dirName : List Nat) (ctx : DirectoryContext)
    (bsi : BootSectorInfo) : DirectoryContext × Bool :=
  if dirName = [46] then (ctx, true)
  else
    cdLoop (codeReadCluster img ctx.currentCluster bsi) dirName
      ((bsi.bytesPerSector * bsi.sectorsPerCluster) / 40) 0 ctx false

/-- The slot search of createDirectory, src/FAT.c lines 181-192: the
first record whose first name byte is 0x00 or 0xE5, stride 40. -/
def findSlotLoop (buf : List Nat) : Nat → Nat → Option Nat
  | 0, _ => none
  | n + 1, off =>
    if byteAt buf off = 0 ∨ byteAt buf off = 229 then some off
    else findSlotLoop buf n (off + 40)

/-- The in-buffer entry update of createDirectory, src/FAT.c lines
183-187: strncpy of the name (NUL padded), attr = 0x10, the 16-bit
cluster halves of `context->currentCluster` stored little-endian at
struct offsets 34 and 32, fileSize = 0; all other record bytes keep
their previous contents. -/
def updateEntryBuf (buf : List Nat) (off : Nat) (dirName : List Nat) (cur : Nat) : List Nat :=
  (List.range buf.length).map (fun i =>
    if off ≤ i ∧ i < off + 11 then byteAt dirName (i - off)
    else if i = off + 11 then 16
    else if i = off + 32 then (cur >>> 16) % 256
    else if i = off + 33 then (cur >>> 24) % 256
    else if i = off + 34 then cur % 256
    else if i = off + 35 then (cur >>> 8) % 256
    else if off + 36 ≤ i ∧ i < off + 40 then 0
    else byteAt buf i)

/-- Overwriting `buf.length` bytes of the image at byte offset `off`;
faithful to `write(2)` whenever `off + buf.length` stays inside the
image, which holds at every use below. -/
def overwriteAt (img : List Nat) (off : Nat) (buf : List Nat) : List Nat :=
  (List.range img.length).map (fun i =>
    if off ≤ i ∧ i < off + buf.length then byteAt buf (i - off) else byteAt img i)

/-- createDirectory, src/FAT.c lines 165-202, as the image transform it
performs when the descriptor is writable: read the current cluster,
fill the first free or 0xE5 slot, and write the buffer back at byte
offset `currentCluster * bytesPerSector * sectorsPerCluster` (line 197,
unsigned int arithmetic). With no free slot the image is untouched. -/
def codeCreateDirectory (img dirName : List Nat) (ctx : DirectoryContext)
    (bsi : BootSectorInfo) : List Nat :=
  let buf := codeReadCluster img ctx.currentCluster bsi
  match findSlotLoop buf ((bsi.bytesPerSector * bsi.sectorsPerCluster) / 40) 0 with
  | none => img
  | some off =>
    overwriteAt img ((ctx.currentCluster * bsi.bytesPerSector * bsi.sectorsPerCluster) % 2 ^ 32)
      (updateEntryBuf buf off dirName ctx.currentCluster)

/-- The totalClusters computation of printBootSectorInfo, src/FAT.c
line 127: `st.st_size / (sectorsPerCluster * bytesPerSector)`, stored
in an unsigned int. -/
def codeTotalClusters (size spc bps : Nat) : Nat := (size / (spc * bps)) % 2 ^ 32

end Fat32

namespace Fat32

/-- Volume geometry as the specification describes it (spec sections 3
and 4.1), including the reserved-sector count and FAT count that the
source's BootSectorInfo lacks. -/
structure SpecGeometry where
  bytesPerSector : Nat
  sectorsPerCluster : Nat
  reservedSectors : Nat
  numberOfFATs : Nat
  sectorsPerFAT : Nat
  rootCluster : Nat
  totalClusters : Nat
  imageSize : Nat
deriving DecidableEq

/-- Error kinds of the specification (section 7) used here. -/
inductive FsError where
  | invalidCluster
  | cyclicChain
  | freeCluster
  | badCluster
deriving DecidableEq

/-- Data region start in bytes, per spec section 4.2:
reserved sectors plus numberOfFATs times sectorsPerFAT, in sectors,
times bytesPerSector. -/
def dataRegionStart (g : SpecGeometry) : Nat :=
  (g.reservedSectors + g.numberOfFATs * g.sectorsPerFAT) * g.bytesPerSector

/-- Follows the spec wording of clusterToOffset (section 4.2), stated
for comparison against `codeClusterOffset`: InvalidCluster outside
[2, totalClusters+2), else dataRegionStart + (cluster-2) * bytesPerSector
* sectorsPerCluster. -/
def specClusterToOffset (g : SpecGeometry) (cluster : Nat) : Except FsError Nat :=
  if cluster < 2 ∨ g.totalClusters + 2 ≤ cluster then Except.error FsError.invalidCluster
  else Except.ok (dataRegionStart g + (cluster - 2) * g.bytesPerSector * g.sectorsPerCluster)

/-- Follows the spec wording for total clusters (section 4.1), stated
for comparison against `codeTotalClusters`: imageSize divided by the
cluster size, minus the clusters occupied by the reserved sectors and
all FAT copies. -/
def specTotalClusters (imageSize bps spc reserved nfats spf : Nat) : Nat :=
  imageSize / (bps * spc) - (reserved + nfats * spf) / spc

/-- Low 28 bits of a FAT entry (spec section 3, FatEntry). -/
def fatMask (v : Nat) : Nat := v % 268435456

/-- Result of classifying one FAT entry (spec section 4.3). -/
inductive FatNext where
  | next (c : Nat)
  | endOfChain
  | free
  | bad
deriving DecidableEq

/-- Modelled from the spec: nextCluster of section 4.3, absent from
src/FAT.c. The raw 32-bit FAT entry is masked to 28 bits and
classified: 0 is free, 0x0FFFFFF7 is bad, 0x0FFFFFF8..0x0FFFFFFF is
end of chain, anything else is the next cluster. -/
def nextCluster (fat : Nat → Nat) (c : Nat) : FatNext :=
  if fatMask (fat c) = 0 then FatNext.free
  else if fatMask (fat c) = 268435447 then FatNext.bad
  else if 268435448 ≤ fatMask (fat c) then FatNext.endOfChain
  else FatNext.next (fatMask (fat c))

/-- Modelled from the spec: the loop of collectChain (section 4.3),
absent from src/FAT.c, with its visited-set loop guard bounded by
totalClusters (the fuel counts the visited-set capacity). -/
def collectChainAux (fat : Nat → Nat) : Nat → List Nat → Nat → Except FsError (List Nat)
  | 0, _, _ => Except.error FsError.cyclicChain
  | fuel + 1, visited, c =>
    if c ∈ visited then Except.error FsError.cyclicChain
    else
      match nextCluster fat c with
      | FatNext.free => Except.error FsError.freeCluster
      | FatNext.bad => Except.error FsError.badCluster
      | FatNext.endOfChain => Except.ok [c]
      | FatNext.next c2 =>
        match collectChainAux fat fuel (c :: visited) c2 with
        | Except.ok rest => Except.ok (c :: rest)
        | Except.error e => Except.error e

/-- Modelled from the spec: collectChain of section 4.3, absent from
src/FAT.c. It starts at `start` and follows `nextCluster` until
EndOfChain, failing with CyclicChain if a cluster repeats; the visited
set is bounded by totalClusters. -/
def collectChain (fat : Nat → Nat) (totalClusters start : Nat) : Except FsError (List Nat) :=
  collectChainAux fat (totalClusters + 1) [] start

/-- The sequence of clusters reached by repeatedly taking the masked
FAT entry, starting at `start`. -/
def trajFat (fat : Nat → Nat) (start : Nat) : Nat → Nat
  | 0 => start
  | k + 1 => fatMask (fat (trajFat fat start k))

/-- `ChainFrom fat c l`: `l` is the finite cluster chain that begins at
`c` and follows `nextCluster` until an end-of-chain entry. -/
inductive ChainFrom (fat : Nat → Nat) : Nat → List Nat → Prop
  | last (c : Nat) : nextCluster fat c = FatNext.endOfChain → ChainFrom fat c [c]
  | cons (c c2 : Nat) (l : List Nat) : nextCluster fat c = FatNext.next c2 →
      ChainFrom fat c2 l → ChainFrom fat c (c :: l)

/-- A 32-bit FAT entry read out of the image bytes: the FAT region
starts at `fatStart` and holds one little-endian 4-byte entry per
cluster number. -/
def imgFat (img : List Nat) (fatStart c : Nat) : Nat := readLE32 img (fatStart + 4 * c)

end Fat32

namespace Fat32

/-- Mode of an open file descriptor. -/
inductive OpenMode where
  | readOnly
  | readWrite
deriving DecidableEq

/-- main opens the image with O_RDONLY, src/FAT.c line 210. -/
def mainOpenMode : OpenMode := OpenMode.readOnly

/-- The verbs the command loop of main dispatches, src/FAT.c
lines 231-247. -/
inductive Command where
  | info
  | ls
  | cd (name : List Nat)
  | mkdirCmd (name : List Nat)
  | exitCmd
  | unknown
deriving DecidableEq

/-- State of one interactive session of main. -/
structure SessionState where
  image : List Nat
  ctx : DirectoryContext
  bsi : BootSectorInfo
  mode : OpenMode

/-- One dispatch of the command loop, src/FAT.c lines 231-247: `info`
re-opens the image read-only and only prints (filling a local record,
not the loop's bsi); the changeDirectory call of `cd` is commented out
(line 238); `ls` only reads; `mkdir` runs createDirectory, whose
write(2) fails with EBADF on a read-only descriptor, leaving the image
bytes unchanged. No branch assigns the loop's BootSectorInfo. -/
def stepCommand (s : SessionState) : Command → SessionState
  | Command.info => s
  | Command.ls => s
  | Command.cd _ => s
  | Command.mkdirCmd name =>
    if s.mode = OpenMode.readWrite then
      { s with image := codeCreateDirectory s.image name s.ctx s.bsi }
    else s
  | Command.exitCmd => s
  | Command.unknown => s

/-- The command loop of main: processes commands in order, stopping at
`exit`. -/
def runSession (s : SessionState) : List Command → SessionState
  | [] => s
  | Command.exitCmd :: _ => s
  | c :: cs => runSession (stepCommand s c) cs

/-- The state main sets up, src/FAT.c lines 210-220: fd opened
O_RDONLY, context `{currentCluster := 2, path := "/"}`, and a
BootSectorInfo that no code path initializes - its contents stay
whatever indeterminate value `b` the stack held. -/
def initSession (image : List Nat) (b : BootSectorInfo) : SessionState :=
  { image := image, ctx := ⟨2, [47]⟩, bsi := b, mode := mainOpenMode }

end Fat32

namespace Fat32

/-- Geometry of the C1/C4 fixture volume: 512-byte sectors, 1 sector
per cluster, 32 reserved sectors, 2 FATs of 100 sectors, 1 MiB image. -/
def c1Geom : SpecGeometry := ⟨512, 1, 32, 2, 100, 2, 1816, 1048576⟩

/-- The same volume as src/FAT.c's BootSectorInfo records it. -/
def c1Bsi : BootSectorInfo := ⟨512, 1, 2, 2048, 100, 1048576⟩

/-- 32-byte FAT region of the two-cluster-chain fixture: entries 2 -> 3
and 3 -> end of chain. -/
def fatBytes32 : List Nat :=
  List.replicate 8 0 ++ [3, 0, 0, 0] ++ [255, 255, 255, 15] ++ List.replicate 16 0

/-- Space-padded name of the live entry in cluster 2 of the fixture. -/
def nameA : List Nat := [65, 70, 73, 76, 69, 32, 32, 32, 32, 32, 32]

/-- Space-padded name of the live entry in cluster 3 of the fixture. -/
def nameB : List Nat := [66, 70, 73, 76, 69, 32, 32, 32, 32, 32, 32]

/-- 128-byte image with 32-byte sectors and clusters: boot sector,
one FAT sector, then data clusters 2 and 3 holding one directory entry
each; the FAT chains cluster 2 to cluster 3. -/
def c2Img : List Nat :=
  List.replicate 32 0 ++ fatBytes32 ++ (nameA ++ [16] ++ List.replicate 20 0) ++
    (nameB ++ [16] ++ List.replicate 20 0)

/-- BootSectorInfo of the 128-byte fixture. -/
def smallBsi32 : BootSectorInfo := ⟨32, 1, 2, 4, 1, 128⟩

/-- BootSectorInfo of the 256-byte fixtures (64-byte clusters, so one
40-byte record fits per cluster). -/
def smallBsi64 : BootSectorInfo := ⟨64, 1, 2, 4, 1, 256⟩

/-- A context positioned at the root cluster 2. -/
def rootCtx : DirectoryContext := ⟨2, [47]⟩

/-- 64-byte FAT region putting an end-of-chain entry at cluster 2. -/
def fatBytes64 : List Nat :=
  List.replicate 8 0 ++ [255, 255, 255, 15] ++ List.replicate 52 0

/-- 256-byte image with 64-byte clusters: boot, one FAT sector, empty
directory cluster 2, and cluster 3 filled with 0xAA bytes. -/
def c3Img : List Nat :=
  List.replicate 64 0 ++ fatBytes64 ++ List.replicate 64 0 ++ List.replicate 64 170

/-- The name passed to mkdir in the C3 fixture. -/
def nameNEW : List Nat := [78, 69, 87]

/-- The image after createDirectory runs on the C3 fixture. -/
def c3Result : List Nat := codeCreateDirectory c3Img nameNEW rootCtx smallBsi64

/-- Cluster 2 of the C5 fixture: a single `..` entry whose first
cluster field is 5. -/
def c5Cluster2 : List Nat :=
  dotdotPadded ++ [16] ++ List.replicate 20 0 ++ [0, 0] ++ [5, 0] ++ [0, 0, 0, 0] ++
    List.replicate 24 0

/-- 256-byte image whose directory cluster 2 holds a `..` entry
pointing at cluster 5. -/
def c5Img : List Nat :=
  List.replicate 64 0 ++ fatBytes64 ++ c5Cluster2 ++ List.replicate 64 0

/-- FAT function of the C6 witness: 2 -> 3 -> end of chain. -/
def chainFatA (c : Nat) : Nat := if c = 2 then 3 else if c = 3 then 268435455 else 0

/-- FAT function of the C6 cyclic witness: every entry points at 2. -/
def cycFat (_ : Nat) : Nat := 2

/-- Geometry of the C7 witness. -/
def w7Bsi : BootSectorInfo := ⟨512, 1, 2, 100, 1, 51200⟩

/-- An alternative indeterminate BootSectorInfo value (root cluster 3)
under which listDirectory reads a different cluster. -/
def altBsi : BootSectorInfo := ⟨32, 1, 3, 4, 1, 128⟩

end Fat32

namespace Fat32

lemma chainFrom_head {fat : Nat → Nat} {c : Nat} {l : List Nat} (h : ChainFrom fat c l) :
    l.head? = some c := by
  cases h <;> rfl

lemma collectChainAux_ok {fat : Nat → Nat} {c : Nat} {l : List Nat} (h : ChainFrom fat c l) :
    ∀ (fuel : Nat) (visited : List Nat), l.length ≤ fuel → l.Nodup →
      (∀ x ∈ l, x ∉ visited) → collectChainAux fat fuel visited c = Except.ok l := by
  induction h with
  | last c hc =>
    intro fuel visited hfuel _ hvis
    obtain ⟨f, rfl⟩ : ∃ f, fuel = f + 1 := ⟨fuel - 1, by simp at hfuel; omega⟩
    have hcv : c ∉ visited := hvis c (by simp)
    simp [collectChainAux, hcv, hc]
  | cons c c2 l hc _ ih =>
    intro fuel visited hfuel hnd hvis
    obtain ⟨f, rfl⟩ : ∃ f, fuel = f + 1 := ⟨fuel - 1, by simp at hfuel; omega⟩
    have hcv : c ∉ visited := hvis c (by simp)
    have hnd' := (List.nodup_cons.mp hnd).2
    have hcl := (List.nodup_cons.mp hnd).1
    have hvis' : ∀ x ∈ l, x ∉ c :: visited := by
      intro x hx
      simp only [List.mem_cons, not_or]
      exact ⟨fun hxc => hcl (hxc ▸ hx), hvis x (List.mem_cons_of_mem _ hx)⟩
    have hrec := ih f (c :: visited) (by simp at hfuel ⊢; omega) hnd' hvis'
    simp [collectChainAux, hcv, hc, hrec]

lemma collectChainAux_cyclic (fat : Nat → Nat) (start j : Nat)
    (hsteps : ∀ m, m < j →
      nextCluster fat (trajFat fat start m) = FatNext.next (trajFat fat start (m + 1))) :
    ∀ (d k fuel : Nat) (visited : List Nat), k + d = j → j - k < fuel →
      (trajFat fat start j ∈ visited ∨
        ∃ i, k ≤ i ∧ i < j ∧ trajFat fat start i = trajFat fat start j) →
      collectChainAux fat fuel visited (trajFat fat start k) =
        Except.error FsError.cyclicChain := by
  intro d
  induction d with
  | zero =>
    intro k fuel visited hkd hfuel hmem
    obtain ⟨f, rfl⟩ : ∃ f, fuel = f + 1 := ⟨fuel - 1, by omega⟩
    have hk : k = j := by omega
    subst hk
    rcases hmem with h | ⟨i, hi1, hi2, _⟩
    · simp [collectChainAux, h]
    · omega
  | succ d ih =>
    intro k fuel visited hkd hfuel hmem
    obtain ⟨f, rfl⟩ : ∃ f, fuel = f + 1 := ⟨fuel - 1, by omega⟩
    by_cases hv : trajFat fat start k ∈ visited
    · simp [collectChainAux, hv]
    · have hklt : k < j := by omega
      have hstep := hsteps k hklt
      have hrec := ih (k + 1) f (trajFat fat start k :: visited) (by omega) (by omega) ?memgoal
      · simp [collectChainAux, hv, hstep, hrec]
      · rcases hmem with h | ⟨i, hi1, hi2, hi3⟩
        · exact Or.inl (List.mem_cons_of_mem _ h)
        · rcases Nat.eq_or_lt_of_le hi1 with heq | hlt
          · exact Or.inl (by rw [← hi3, ← heq]; exact List.mem_cons_self _ _)
          · exact Or.inr ⟨i, hlt, hi2, hi3⟩

/-- Claim C6: collectChain on a finite chain of length n yields exactly
those n clusters, beginning at the start cluster and following
nextCluster to the end-of-chain marker, and it terminates; on a FAT
whose traversal repeats a cluster it fails with CyclicChain, the
traversal being bounded by totalClusters. -/
theorem collectChain_spec (fat : Nat → Nat) (total start : Nat) :
    (∀ l : List Nat, ChainFrom fat start l → l.Nodup → l.length ≤ total + 1 →
      collectChain fat total start = Except.ok l ∧ l.head? = some start) ∧
    (∀ j : Nat, j ≤ total →
      (∀ m, m < j →
        nextCluster fat (trajFat fat start m) = FatNext.next (trajFat fat start (m + 1))) →
      (∃ i, i < j ∧ trajFat fat start i = trajFat fat start j) →
      collectChain fat total start = Except.error FsError.cyclicChain) := by
  constructor
  · intro l hch hnd hlen
    exact ⟨collectChainAux_ok hch (total + 1) [] hlen hnd (by simp), chainFrom_head hch⟩
  · intro j hj hsteps hrep
    obtain ⟨i, hij, hrepi⟩ := hrep
    have h := collectChainAux_cyclic fat start j hsteps j 0 (total + 1) [] (by omega)
      (by omega) (Or.inr ⟨i, Nat.zero_le i, hij, hrepi⟩)
    simpa [collectChain, trajFat] using h

/-- Witness for C6: a two-cluster chain is collected whole, and a FAT
whose every entry points back at cluster 2 is reported as cyclic. -/
theorem collectChain_spec_witness :
    collectChain chainFatA 2 2 = Except.ok [2, 3] ∧
      collectChain cycFat 2 2 = Except.error FsError.cyclicChain := by
  constructor
  · exact ((collectChain_spec chainFatA 2 2).1 [2, 3]
      (ChainFrom.cons 2 3 [3] (by decide) (ChainFrom.last 3 (by decide)))
      (by decide) (by decide)).1
  · exact (collectChain_spec cycFat 2 2).2 1 (by decide)
      (fun m hm => by
        have hm0 : m = 0 := by omega
        subst hm0
        rfl)
      ⟨0, by decide, by decide⟩

lemma codeClusterSector_eq (bsi : BootSectorInfo) (c : Nat) (h2 : 2 ≤ c) (hc : c < 2 ^ 32)
    (hov : (c - 2) * bsi.sectorsPerCluster + bsi.rootCluster < 2 ^ 32) :
    codeClusterSector bsi c = (c - 2) * bsi.sectorsPerCluster + bsi.rootCluster := by
  unfold codeClusterSector
  rw [Nat.mod_eq_of_lt hc]
  have h1 : c + 2 ^ 32 - 2 = (c - 2) + 2 ^ 32 := by omega
  rw [h1]
  have h3 : ((c - 2) + 2 ^ 32) * bsi.sectorsPerCluster + bsi.rootCluster =
      ((c - 2) * bsi.sectorsPerCluster + bsi.rootCluster) + 2 ^ 32 * bsi.sectorsPerCluster := by
    ring
  rw [h3, Nat.add_mul_mod_self_left, Nat.mod_eq_of_lt hov]

lemma codeClusterOffset_lt (bsi : BootSectorInfo) (c1 c2 : Nat)
    (hbps : 0 < bsi.bytesPerSector) (hspc : 0 < bsi.sectorsPerCluster)
    (h1 : 2 ≤ c1) (hlt : c1 < c2) (h2t : c2 < bsi.totalClusters + 2)
    (hov : bsi.totalClusters * bsi.sectorsPerCluster + bsi.rootCluster + 1 < 2 ^ 32) :
    codeClusterOffset bsi c1 < codeClusterOffset bsi c2 := by
  have htot : bsi.totalClusters ≤ bsi.totalClusters * bsi.sectorsPerCluster := by
    calc bsi.totalClusters = bsi.totalClusters * 1 := (Nat.mul_one _).symm
      _ ≤ bsi.totalClusters * bsi.sectorsPerCluster := Nat.mul_le_mul_left _ hspc
  have hb2 : (c2 - 2) * bsi.sectorsPerCluster + bsi.rootCluster < 2 ^ 32 := by
    have hmm : (c2 - 2) * bsi.sectorsPerCluster ≤ bsi.totalClusters * bsi.sectorsPerCluster :=
      Nat.mul_le_mul_right _ (by omega)
    omega
  have hb1 : (c1 - 2) * bsi.sectorsPerCluster + bsi.rootCluster < 2 ^ 32 := by
    have hmm : (c1 - 2) * bsi.sectorsPerCluster ≤ bsi.totalClusters * bsi.sectorsPerCluster :=
      Nat.mul_le_mul_right _ (by omega)
    omega
  have hc2 : c2 < 2 ^ 32 := by omega
  have hc1 : c1 < 2 ^ 32 := by omega
  unfold codeClusterOffset
  rw [codeClusterSector_eq bsi c1 h1 hc1 hb1, codeClusterSector_eq bsi c2 (by omega) hc2 hb2]
  have hmul : (c1 - 2) * bsi.sectorsPerCluster < (c2 - 2) * bsi.sectorsPerCluster :=
    mul_lt_mul_of_pos_right (by omega) hspc
  exact mul_lt_mul_of_pos_right (by omega) hbps

/-- Claim C7: over valid cluster numbers in [2, totalClusters+2) the
byte offset readCluster computes is strictly increasing, hence
injective (given nonzero geometry and no unsigned-int overflow of the
sector computation). -/
theorem codeClusterOffset_mono (bsi : BootSectorInfo) (c1 c2 : Nat)
    (hbps : 0 < bsi.bytesPerSector) (hspc : 0 < bsi.sectorsPerCluster)
    (h1 : 2 ≤ c1) (h1t : c1 < bsi.totalClusters + 2)
    (h2 : 2 ≤ c2) (h2t : c2 < bsi.totalClusters + 2)
    (hov : bsi.totalClusters * bsi.sectorsPerCluster + bsi.rootCluster + 1 < 2 ^ 32) :
    (c1 < c2 → codeClusterOffset bsi c1 < codeClusterOffset bsi c2) ∧
      (codeClusterOffset bsi c1 = codeClusterOffset bsi c2 → c1 = c2) := by
  refine ⟨fun h => codeClusterOffset_lt bsi c1 c2 hbps hspc h1 h h2t hov, fun heq => ?_⟩
  rcases Nat.lt_trichotomy c1 c2 with h | h | h
  · exact absurd heq (Nat.ne_of_lt (codeClusterOffset_lt bsi c1 c2 hbps hspc h1 h h2t hov))
  · exact h
  · exact absurd heq.symm (Nat.ne_of_lt (codeClusterOffset_lt bsi c2 c1 hbps hspc h2 h h1t hov))

/-- Witness for C7 on a concrete 100-cluster geometry. -/
theorem codeClusterOffset_mono_witness :
    codeClusterOffset w7Bsi 5 < codeClusterOffset w7Bsi 9 :=
  (codeClusterOffset_mono w7Bsi 5 9 (by decide) (by decide) (by decide) (by decide) (by decide)
    (by decide) (by decide)).1 (by decide)

lemma stepCommand_readOnly (s : SessionState) (c : Command)
    (h : s.mode = OpenMode.readOnly) : stepCommand s c = s := by
  cases c <;> simp [stepCommand, h]

lemma runSession_readOnly (cmds : List Command) : ∀ s : SessionState,
    s.mode = OpenMode.readOnly → runSession s cmds = s := by
  induction cmds with
  | nil => intro s _; rfl
  | cons c cs ih =>
    intro s h
    cases c with
    | info => rw [show runSession s (Command.info :: cs) =
        runSession (stepCommand s Command.info) cs from rfl,
        stepCommand_readOnly s _ h]; exact ih s h
    | ls => rw [show runSession s (Command.ls :: cs) =
        runSession (stepCommand s Command.ls) cs from rfl,
        stepCommand_readOnly s _ h]; exact ih s h
    | cd name => rw [show runSession s (Command.cd name :: cs) =
        runSession (stepCommand s (Command.cd name)) cs from rfl,
        stepCommand_readOnly s _ h]; exact ih s h
    | mkdirCmd name => rw [show runSession s (Command.mkdirCmd name :: cs) =
        runSession (stepCommand s (Command.mkdirCmd name)) cs from rfl,
        stepCommand_readOnly s _ h]; exact ih s h
    | exitCmd => rfl
    | unknown => rw [show runSession s (Command.unknown :: cs) =
        runSession (stepCommand s Command.unknown) cs from rfl,
        stepCommand_readOnly s _ h]; exact ih s h

/-- Claim C1: readCluster's byte offset disagrees with the specified
clusterToOffset. On a volume with 32 reserved sectors and two FATs of
100 sectors (512-byte sectors), cluster 2 must live at byte 118784 but
the code seeks to byte 1024; and the code performs the access for any
cluster number while the spec demands InvalidCluster for cluster 0. -/
theorem readCluster_offset_ignores_fat_region :
    specClusterToOffset c1Geom 2 = Except.ok 118784 ∧
      codeClusterOffset c1Bsi 2 = 1024 ∧
      specClusterToOffset c1Geom 0 = Except.error FsError.invalidCluster ∧
      codeClusterOffset c1Bsi 0 = 0 ∧ (1024 : Nat) ≠ 118784 := by
  refine ⟨rfl, by decide, rfl, by decide, by decide⟩

/-- Claim C2: listDirectory reads one single cluster and walks no FAT
chain. On an image whose directory chain is cluster 2 then cluster 3,
the live entry of cluster 3 (name BFILE) is absent from the listing,
though the chain reaches cluster 3 and the entry is neither deleted
nor an end marker. -/
theorem listDirectory_reads_single_cluster :
    codeListDirectory c2Img rootCtx smallBsi32 = [[46], [46, 46], nameA] ∧
      collectChain (imgFat c2Img 32) 2 2 = Except.ok [2, 3] ∧
      byteAt c2Img 96 ≠ 0 ∧ byteAt c2Img 96 ≠ 229 ∧
      printedName (entryNameAt c2Img 96) = nameB ∧
      nameB ∉ codeListDirectory c2Img rootCtx smallBsi32 := by
  refine ⟨by decide, rfl, by decide, by decide, by decide, by decide⟩

/-- Claim C3: the entry createDirectory writes carries the first
cluster of the *current* directory, not of a freshly allocated one,
and nothing else of the image changes: the FAT region is untouched (no
allocation) and so is every other cluster (no zero-fill, no `.` and
`..` bootstrap entries anywhere). -/
theorem createDirectory_entry_points_at_current :
    entryFirstCluster (decodeDirEntry c3Result 128) = rootCtx.currentCluster ∧
      rootCtx.currentCluster = 2 ∧
      (decodeDirEntry c3Result 128).attr = 16 ∧
      (decodeDirEntry c3Result 128).fileSize = 0 ∧
      (decodeDirEntry c3Result 128).name = [78, 69, 87, 0, 0, 0, 0, 0, 0, 0, 0] ∧
      List.take 128 c3Result = List.take 128 c3Img ∧
      List.drop 192 c3Result = List.drop 192 c3Img := by
  refine ⟨by decide, rfl, by decide, by decide, by decide, by decide, by decide⟩

/-- Claim C4: the code's total-cluster count divides the image size by
the cluster size and subtracts nothing, while the spec subtracts the
clusters occupied by the reserved sectors and both FAT copies: 2048
against 1816 on a 1 MiB volume with 32 reserved sectors and two FATs
of 100 sectors. -/
theorem totalClusters_ignores_reserved_and_fats :
    codeTotalClusters 1048576 1 512 = 2048 ∧
      specTotalClusters 1048576 512 1 32 2 100 = 1816 ∧ (2048 : Nat) ≠ 1816 := by
  refine ⟨by decide, by decide, by decide⟩

/-- Claim C5: changeDirectory("..") leaves the current cluster
unchanged even though the directory's own `..` entry names cluster 5
as the parent: the code only sets its `found` flag. The `"."` case is
a no-op success as claimed. -/
theorem changeDirectory_dotdot_keeps_cluster :
    codeChangeDirectory c5Img [46, 46] rootCtx smallBsi64 = (rootCtx, true) ∧
      entryFirstCluster (decodeDirEntry c5Img 128) = 5 ∧
      rootCtx.currentCluster = 2 ∧
      codeChangeDirectory c5Img [46] rootCtx smallBsi64 = (rootCtx, true) := by
  refine ⟨by decide, by decide, rfl, by decide⟩

/-- Claim C8: main opens the image read-only, so over every command
sequence of a session - including mkdir, whose write-back fails on the
read-only descriptor - the image bytes are unchanged. -/
theorem session_never_writes_image (image : List Nat) (b : BootSectorInfo)
    (cmds : List Command) :
    (runSession (initSession image b) cmds).image = image := by
  rw [runSession_readOnly cmds (initSession image b) rfl]; rfl

/-- Claim C9: no command of the session ever assigns the loop's
BootSectorInfo, so after any command sequence it still holds its
arbitrary initial value; and both listDirectory and createDirectory
genuinely depend on that value (two different garbage geometries give
different listings and different written images). -/
theorem bsi_stays_indeterminate (image : List Nat) (b : BootSectorInfo)
    (cmds : List Command) :
    (runSession (initSession image b) cmds).bsi = b ∧
      codeListDirectory c2Img rootCtx smallBsi32 ≠ codeListDirectory c2Img rootCtx altBsi ∧
      codeCreateDirectory c3Img nameNEW rootCtx smallBsi64 ≠
        codeCreateDirectory c3Img nameNEW rootCtx smallBsi32 := by
  refine ⟨?_, by decide, by decide⟩
  rw [runSession_readOnly cmds (initSession image b) rfl]; rfl

end Fat32
